import Mathlib

/-!
# chrome-troubleshooter — verification of the spec against the source

Shallow embedding of the core of the `chrome-troubleshooter` repository:
the stage selector, the session loop, the per-stage process supervisor,
the single-instance lock, the structured multi-sink logger and the
configuration clamps.  Every definition is translated directly from the
Python source (`launcher.py`, `async_launcher.py`, `logger.py`,
`config.py`); theorems settle the spec's claims about those functions.
-/

/-! ## Stage selector (`ChromeLauncher._build_launch_stages`, launcher.py 42-118) -/

/-- One launch stage: name, human description and its extra Chrome flags,
as built by `_build_launch_stages`. -/
structure Stage where
  name : String
  description : String
  flags : List String
deriving DecidableEq, Repr

/-- The environment snapshot consulted by `_build_launch_stages`
(`diagnostics.get_system_info()`), restricted to the keys the stage
builder and `detect_environment` actually read. -/
structure SystemInfo where
  gpu_vendor : String
  session_type : String
  selinux_status : String
  container_type : String
  running_in_flatpak : Bool
  nvidia_vaapi_available : Bool
deriving DecidableEq, Repr

/-- Baseline stage (launcher.py line 45). -/
def vanillaStage : Stage := ⟨"vanilla", "Standard launch", []⟩

/-- NVIDIA VA-API mitigation stage (launcher.py lines 54-58). -/
def nvidiaVaapiStage : Stage :=
  ⟨"no_nvidia_vaapi", "Disable NVIDIA VA-API",
    ["--disable-features=VaapiVideoDecoder,VaapiVideoEncoder"]⟩

/-- AMD VA-API mitigation stage (launcher.py lines 60-64). -/
def amdVaapiStage : Stage :=
  ⟨"no_amd_vaapi", "Disable AMD VA-API",
    ["--disable-features=VaapiVideoDecoder", "--disable-gpu-sandbox"]⟩

/-- Generic GPU fallback stage (launcher.py lines 67-71). -/
def noGpuStage : Stage :=
  ⟨"no_gpu", "Disable GPU acceleration", ["--disable-gpu", "--disable-gpu-sandbox"]⟩

/-- Wayland compatibility stage (launcher.py lines 75-79). -/
def waylandStage : Stage :=
  ⟨"wayland_fallback", "Wayland compatibility mode",
    ["--disable-gpu", "--enable-features=UseOzonePlatform", "--ozone-platform=wayland"]⟩

/-- SELinux compatibility stage (launcher.py lines 84-88). -/
def selinuxStage : Stage :=
  ⟨"selinux_compat", "SELinux compatibility mode",
    ["--disable-gpu", "--no-sandbox", "--disable-seccomp-filter-sandbox"]⟩

/-- Container compatibility stage (launcher.py lines 93-97); the
description interpolates the detected container type. -/
def containerStage (containerType : String) : Stage :=
  ⟨"container_mode", "Container mode (" ++ containerType ++ ")",
    ["--disable-gpu", "--no-sandbox", "--disable-dev-shm-usage", "--disable-setuid-sandbox"]⟩

/-- Flatpak sandbox stage (launcher.py lines 101-105). -/
def flatpakStage : Stage :=
  ⟨"flatpak_mode", "Flatpak sandbox mode",
    ["--disable-gpu", "--no-sandbox", "--disable-seccomp-filter-sandbox"]⟩

/-- Terminal maximal-compatibility stage (launcher.py lines 108-116). -/
def safeModeStage : Stage :=
  ⟨"safe_mode", "Maximum compatibility mode",
    ["--disable-gpu", "--no-sandbox", "--disable-seccomp-filter-sandbox",
     "--disable-dev-shm-usage", "--disable-setuid-sandbox",
     "--disable-extensions", "--incognito"]⟩

/-- GPU-vendor conditional block of `_build_launch_stages`
(launcher.py lines 52-64): `if gpu_vendor == "nvidia": ... elif "amd": ...`. -/
def gpuStages (info : SystemInfo) : List Stage :=
  if info.gpu_vendor = "nvidia" then [nvidiaVaapiStage]
  else if info.gpu_vendor = "amd" then [amdVaapiStage]
  else []

/-- Wayland conditional block (launcher.py line 74). -/
def waylandStages (info : SystemInfo) : List Stage :=
  if info.session_type = "wayland" then [waylandStage] else []

/-- SELinux conditional block (launcher.py lines 82-83). -/
def selinuxStages (info : SystemInfo) : List Stage :=
  if info.selinux_status = "enforcing" then [selinuxStage] else []

/-- Container conditional block (launcher.py lines 91-92):
`if container_type != "none"`. -/
def containerStages (info : SystemInfo) : List Stage :=
  if info.container_type ≠ "none" then [containerStage info.container_type] else []

/-- Flatpak conditional block (launcher.py line 100). -/
def flatpakStages (info : SystemInfo) : List Stage :=
  if info.running_in_flatpak then [flatpakStage] else []

/-- `ChromeLauncher._build_launch_stages` (launcher.py 42-118): starts from
the vanilla stage, appends each conditional block in source order, and
always ends by appending the safe-mode stage.  Pure function of the
snapshot — the source reads no clock and no randomness here. -/
def buildLaunchStages (info : SystemInfo) : List Stage :=
  vanillaStage ::
    (gpuStages info ++ [noGpuStage] ++ waylandStages info ++ selinuxStages info ++
      containerStages info ++ flatpakStages info ++ [safeModeStage])

/-! ## Configuration clamps (`Config.__post_init__`, config.py 78-102) -/

/-- The four numeric configuration fields validated by
`Config.__post_init__`.  Python integers are unbounded, so `Int`. -/
structure ConfigNums where
  journal_lines : Int
  rotate_days : Int
  launch_timeout : Int
  max_attempts : Int
deriving DecidableEq, Repr

/-- `Config.__post_init__` numeric validation (config.py 84-102):
each field is clamped by an `if low / elif high` pair, in source order. -/
def postInit (c : ConfigNums) : ConfigNums :=
  let jl := if c.journal_lines < 10 then 10
            else if c.journal_lines > 10000 then 10000 else c.journal_lines
  let rd := if c.rotate_days < 1 then 1
            else if c.rotate_days > 365 then 365 else c.rotate_days
  let lt := if c.launch_timeout < 5 then 5
            else if c.launch_timeout > 300 then 300 else c.launch_timeout
  let ma := if c.max_attempts < 1 then 1
            else if c.max_attempts > 10 then 10 else c.max_attempts
  ⟨jl, rd, lt, ma⟩

/-! ## Session attempt loop
(`AsyncChromeLauncher.launch_with_concurrent_diagnostics`,
async_launcher.py 83-116; same counting shape as the sync loop in
launcher.py 431-437) -/

/-- `LaunchAttempt` record (async_launcher.py 22-33), restricted to the
fields the attempt-counting claims are about. -/
structure LaunchAttempt where
  attempt_number : Nat
  strategy : String
  success : Bool
deriving DecidableEq, Repr

/-- The loop body of `launch_with_concurrent_diagnostics`
(async_launcher.py 83-116): `for attempt_num, (strategy, _) in
enumerate(strategies, 1)`, break when `attempt_num > max_attempts`,
append one `LaunchAttempt` per stage tried, and return on the first
success.  `succeeds n` abstracts whether the launch of attempt `n`
survives its stability window. -/
def runAttemptsAux (succeeds : Nat → Bool) (maxAttempts : Nat) :
    List String → Nat → List LaunchAttempt
  | [], _ => []
  | s :: rest, n =>
    if n > maxAttempts then []
    else
      let a : LaunchAttempt := ⟨n, s, succeeds n⟩
      if succeeds n then [a]
      else a :: runAttemptsAux succeeds maxAttempts rest (n + 1)

/-- Attempts recorded by one run of the session loop over `strategies`
with cap `maxAttempts`; numbering starts at 1 as in `enumerate(..., 1)`. -/
def runAttempts (strategies : List String) (maxAttempts : Nat)
    (succeeds : Nat → Bool) : List LaunchAttempt :=
  runAttemptsAux succeeds maxAttempts strategies 1

/-- The fixed strategy list of the async launcher
(async_launcher.py 76-81). -/
def asyncStrategies : List String :=
  ["vanilla", "no_gpu", "no_vaapi", "safe_mode"]

/-! ## Per-stage process supervisor
(`ChromeLauncher.launch_chrome_stage`, launcher.py 270-329) -/

/-- Behaviour of the spawned child during the stability window. -/
inductive ChildBehavior where
  | exitsEarly (code : Int) (stderrText : String)
  | staysAlive (stderrText : String)
deriving DecidableEq, Repr

/-- Observable outcome of `launch_chrome_stage`: the returned
`(success, process)` pair, what was logged, whether stderr was read into
the outcome, and whether the supervisor killed the child. -/
structure StageLaunchResult where
  success : Bool
  processReturned : Bool
  loggedExitCode : Option Int
  capturedStderr : Option String
  childKilled : Bool
deriving DecidableEq, Repr

/-- `ChromeLauncher.launch_chrome_stage` (launcher.py 291-329) after the
child is spawned: sleep `launch_timeout`, then `poll()`.  If the child
already exited, log the exit code and return `(False, None)`; the stderr
pipe is opened but never read, and the supervisor itself kills nothing
(cleanup happens later in `cleanup_chrome_process`).  If the child is
still alive, return `(True, process)` — ownership handed to the caller. -/
def launchChromeStage (b : ChildBehavior) : StageLaunchResult :=
  match b with
  | .exitsEarly code _ =>
      { success := false, processReturned := false,
        loggedExitCode := some code, capturedStderr := none, childKilled := false }
  | .staysAlive _ =>
      { success := true, processReturned := true,
        loggedExitCode := none, capturedStderr := none, childKilled := false }

/-! ## Session-level interrupt handling
(`ChromeLauncher.run_troubleshooting_session`, launcher.py 411-495,
and `cleanup_chrome_process`, launcher.py 331-349) -/

/-- How one run of `run_troubleshooting_session` ends. -/
inductive SessionEvent where
  | interruptedDuringLoop
  | interruptedAfterSuccess
  | completed (ok : Bool)
deriving DecidableEq, Repr

/-- What the caller of `run_troubleshooting_session` observes, plus the
cleanup effects of the `finally` block. -/
structure SessionOutcome where
  returnValue : Option Bool
  exceptionPropagated : Bool
  cleanupRan : Bool
  lockReleased : Bool
deriving DecidableEq, Repr

/-- Exception routing of `run_troubleshooting_session`
(launcher.py 411-495).  If `acquire_lock` fails the function returns
`False` before entering the `try` block, so no cleanup runs.  A
`KeyboardInterrupt` inside the stage loop is caught by the
`except KeyboardInterrupt` handler (line 484) which logs and returns
`False`; a `KeyboardInterrupt` while waiting on a successfully launched
child is caught at line 451 and the function returns `True`.  In both
cases the `finally` block (492-495) runs `cleanup_chrome_process` and
`release_lock`, and the interrupt is NOT re-raised. -/
def runSession (lockAcquired : Bool) (ev : SessionEvent) : SessionOutcome :=
  if !lockAcquired then
    { returnValue := some false, exceptionPropagated := false,
      cleanupRan := false, lockReleased := false }
  else
    match ev with
    | .interruptedDuringLoop =>
        { returnValue := some false, exceptionPropagated := false,
          cleanupRan := true, lockReleased := true }
    | .interruptedAfterSuccess =>
        { returnValue := some true, exceptionPropagated := false,
          cleanupRan := true, lockReleased := true }
    | .completed ok =>
        { returnValue := some ok, exceptionPropagated := false,
          cleanupRan := true, lockReleased := true }

/-- Termination actions of `cleanup_chrome_process` (launcher.py 331-349). -/
inductive CleanupAction where
  | term
  | kill
deriving DecidableEq, Repr

/-- `cleanup_chrome_process`: if the child is still running, call
`terminate()` and wait up to 5 s; on `TimeoutExpired`, `kill()` and wait.
If the child already exited (or none was spawned), do nothing. -/
def cleanupActions (running : Bool) (exitsOnTerm : Bool) : List CleanupAction :=
  if running then
    if exitsOnTerm then [CleanupAction.term]
    else [CleanupAction.term, CleanupAction.kill]
  else []

/-! ## Single-instance lock
(`ChromeLauncher.acquire_lock` / `release_lock`, launcher.py 120-173) -/

/-- Shared state of the well-known lock path
(`/tmp/.chrome_troubleshooter.lock`): the pid holding the OS-level
`flock`, if any, and the file's content (`none` = file absent). -/
structure LockState where
  osHolder : Option Nat
  fileContent : Option String
deriving DecidableEq, Repr

/-- `ChromeLauncher.acquire_lock` (launcher.py 120-160) run by process
`pid` at epoch `now`: `touch(exist_ok=True)`, then
`os.open(path, O_CREAT | O_WRONLY | O_TRUNC)` — which truncates the file
to empty BEFORE the lock is attempted — then
`flock(LOCK_EX | LOCK_NB)`.  If any process (including this one, via a
fresh open file description) already holds the flock, `BlockingIOError`
is raised, the fd is closed and the function returns `False`, leaving
the file truncated.  Otherwise `pid:now\n` is written and `True`
returned. -/
def acquireLock (pid now : Nat) (st : LockState) : Bool × LockState :=
  let opened : LockState := { st with fileContent := some "" }
  match st.osHolder with
  | some _ => (false, opened)
  | none =>
      (true, { osHolder := some pid,
               fileContent := some (toString pid ++ ":" ++ toString now ++ "\n") })

/-- `ChromeLauncher.release_lock` (launcher.py 162-173): when a lock fd
is held, `flock(LOCK_UN)`, close the fd and unlink the lock file;
otherwise do nothing (idempotent). -/
def releaseLock (hasFd : Bool) (st : LockState) : LockState :=
  if hasFd then { osHolder := none, fileContent := none } else st

/-! ## Structured logger (`StructuredLogger`, logger.py 49-401) -/

/-- Result of one physical sink operation: success, or a caught
exception with its message (`sqlite3.Error` / `OSError`). -/
inductive WriteOutcome where
  | ok
  | err (msg : String)
deriving DecidableEq, Repr

/-- Result of one `sqlite3.connect` + schema `executescript` attempt in
`_init_sqlite` (logger.py 88-131): success, a `sqlite3.Error` whose
lowercased message contains "no such column" (recovery path), or any
other `sqlite3.Error`. -/
inductive InitOutcome where
  | ok
  | errNoSuchColumn (msg : String)
  | errOther (msg : String)
deriving DecidableEq, Repr

/-- State of one `StructuredLogger`: sink enable flags, whether the
SQLite connection is open, whether a `logs.sqlite` file exists on disk,
the warnings printed to stderr, the lines echoed to the terminal, the
lines appended to `launcher.log`, the rows inserted into SQLite, the
lines appended to `logs.jsonl`, and `log_count`. -/
structure LoggerState where
  sqliteEnabled : Bool
  sqliteConnected : Bool
  jsonEnabled : Bool
  dbFileExists : Bool
  stderrWarnings : Nat
  terminalLines : List String
  textLogLines : List String
  sqliteRows : Nat
  jsonRows : Nat
  logCount : Nat
deriving DecidableEq, Repr

namespace StructuredLogger

/-- `StructuredLogger._init_sqlite` (logger.py 88-131) together with
`_recover_database` (132-154).  The list supplies the outcome of each
successive connect+schema attempt (the source recursion re-enters
`_init_sqlite` from `_recover_database` on a "no such column" error,
consuming the next outcome).  On any other `sqlite3.Error` a single
warning is printed and `enable_sqlite` is set to `False`.  On the
recovery path the init warning is printed and, when an old database file
exists, `_recover_database` prints one more warning while renaming it
aside. -/
def initSqlite (st : LoggerState) : List InitOutcome → LoggerState
  | [] => st
  | o :: rest =>
    if st.sqliteEnabled = false then st
    else
      match o with
      | .ok => { st with sqliteConnected := true, dbFileExists := true }
      | .errOther _ =>
          { st with stderrWarnings := st.stderrWarnings + 1, sqliteEnabled := false }
      | .errNoSuchColumn _ =>
          let st₁ := { st with stderrWarnings := st.stderrWarnings + 1 }
          let st₂ := if st₁.dbFileExists then
              { st₁ with stderrWarnings := st₁.stderrWarnings + 1, dbFileExists := false }
            else st₁
          initSqlite st₂ rest

/-- `StructuredLogger._init_json` (logger.py 156-166): `touch` the
JSON-lines file; on `OSError` print one warning and disable the JSON
sink.  `touchOk` is whether the `touch` succeeded. -/
def initJson (st : LoggerState) (touchOk : Bool) : LoggerState :=
  if st.jsonEnabled then
    if touchOk then st
    else { st with jsonEnabled := false, stderrWarnings := st.stderrWarnings + 1 }
  else st

/-- The formatted line of `_write_to_terminal` (logger.py line 300):
`[timestamp][level][source] content`. -/
def formatLine (ts level source content : String) : String :=
  "[" ++ ts ++ "][" ++ level ++ "][" ++ source ++ "] " ++ content

/-- `StructuredLogger._write_to_terminal` (logger.py 296-315): always
print the formatted line to the terminal, then append it to
`launcher.log` under an exclusive flock; an `OSError` on the file write
is caught and reported to stderr. -/
def writeToTerminal (st : LoggerState) (ts level source content : String)
    (textO : WriteOutcome) : LoggerState :=
  let line := formatLine ts level source content
  let st₁ := { st with terminalLines := st.terminalLines ++ [line] }
  match textO with
  | .ok => { st₁ with textLogLines := st₁.textLogLines ++ [line] }
  | .err _ => { st₁ with stderrWarnings := st₁.stderrWarnings + 1 }

/-- `StructuredLogger._write_to_sqlite` (logger.py 236-259): return
immediately when the sink is disabled or no connection exists; otherwise
INSERT + commit, and on `sqlite3.Error` print the error to stderr —
WITHOUT disabling the sink. -/
def writeToSqlite (st : LoggerState) (o : WriteOutcome) : LoggerState :=
  if st.sqliteEnabled && st.sqliteConnected then
    match o with
    | .ok => { st with sqliteRows := st.sqliteRows + 1 }
    | .err _ => { st with stderrWarnings := st.stderrWarnings + 1 }
  else st

/-- `StructuredLogger._write_to_json` (logger.py 261-294): return when
the sink is disabled; otherwise append one JSON line under an exclusive
flock, catching any exception and printing it to stderr. -/
def writeToJson (st : LoggerState) (o : WriteOutcome) : LoggerState :=
  if st.jsonEnabled then
    match o with
    | .ok => { st with jsonRows := st.jsonRows + 1 }
    | .err _ => { st with stderrWarnings := st.stderrWarnings + 1 }
  else st

/-- `StructuredLogger.log` (logger.py 317-332): under the instance lock,
take a timestamp, increment `log_count`, then write to the terminal,
SQLite and JSON sinks in that order.  Every sink failure is caught
inside the sink writer, so `log` always returns normally. -/
def log (st : LoggerState) (ts level source content : String)
    (textO sqliteO jsonO : WriteOutcome) : LoggerState :=
  let st₁ := { st with logCount := st.logCount + 1 }
  let st₂ := writeToTerminal st₁ ts level source content textO
  let st₃ := writeToSqlite st₂ sqliteO
  writeToJson st₃ jsonO

/-- `StructuredLogger.debug` (logger.py 334-338): pure call-through. -/
def debug (st : LoggerState) (ts source content : String)
    (textO sqliteO jsonO : WriteOutcome) : LoggerState :=
  log st ts "DEBUG" source content textO sqliteO jsonO

/-- `StructuredLogger.info` (logger.py 340-344): pure call-through. -/
def info (st : LoggerState) (ts source content : String)
    (textO sqliteO jsonO : WriteOutcome) : LoggerState :=
  log st ts "INFO" source content textO sqliteO jsonO

/-- `StructuredLogger.warn` (logger.py 346-350): pure call-through. -/
def warn (st : LoggerState) (ts source content : String)
    (textO sqliteO jsonO : WriteOutcome) : LoggerState :=
  log st ts "WARN" source content textO sqliteO jsonO

/-- `StructuredLogger.warning` (logger.py 352-356): alias of `warn`. -/
def warning (st : LoggerState) (ts source content : String)
    (textO sqliteO jsonO : WriteOutcome) : LoggerState :=
  warn st ts source content textO sqliteO jsonO

/-- `StructuredLogger.error` (logger.py 358-362): pure call-through. -/
def error (st : LoggerState) (ts source content : String)
    (textO sqliteO jsonO : WriteOutcome) : LoggerState :=
  log st ts "ERROR" source content textO sqliteO jsonO

/-- `StructuredLogger.success` (logger.py 364-368): pure call-through. -/
def success (st : LoggerState) (ts source content : String)
    (textO sqliteO jsonO : WriteOutcome) : LoggerState :=
  log st ts "SUCCESS" source content textO sqliteO jsonO

/-- `StructuredLogger.add` (logger.py 370-384): alias of `info`. -/
def add (st : LoggerState) (ts source content : String)
    (textO sqliteO jsonO : WriteOutcome) : LoggerState :=
  info st ts source content textO sqliteO jsonO

/-- `StructuredLogger.__init__` (logger.py 52-86): fresh state with the
requested enable flags, `_init_sqlite`, `_init_json`, `log_count = 0`,
then the constructor's own session-start entry via `self.info(...)`. -/
def new (enableSqlite enableJson : Bool) (sqliteInit : List InitOutcome)
    (jsonTouchOk : Bool) (ts : String)
    (textO sqliteO jsonO : WriteOutcome) : LoggerState :=
  let st : LoggerState :=
    { sqliteEnabled := enableSqlite, sqliteConnected := false,
      jsonEnabled := enableJson, dbFileExists := false,
      stderrWarnings := 0, terminalLines := [], textLogLines := [],
      sqliteRows := 0, jsonRows := 0, logCount := 0 }
  let st₁ := initSqlite st sqliteInit
  let st₂ := initJson st₁ jsonTouchOk
  info st₂ ts "logger" ("Session started: " ++ ts) textO sqliteO jsonO

end StructuredLogger

/-- One call to `StructuredLogger.log` with its per-call inputs, used to
fold a whole session of writes. -/
structure LogCall where
  ts : String
  level : String
  source : String
  content : String
  textO : WriteOutcome
  sqliteO : WriteOutcome
  jsonO : WriteOutcome
deriving DecidableEq, Repr

/-- Fold a list of `log` calls over a logger state. -/
def foldLog (st : LoggerState) : List LogCall → LoggerState
  | [] => st
  | c :: rest =>
      foldLog (StructuredLogger.log st c.ts c.level c.source c.content
        c.textO c.sqliteO c.jsonO) rest

/-- A logger state with both durable sinks healthy, as after a clean
construction (one session-start entry already logged). -/
def goodLoggerState : LoggerState :=
  { sqliteEnabled := true, sqliteConnected := true,
    jsonEnabled := true, dbFileExists := true,
    stderrWarnings := 0, terminalLines := [], textLogLines := [],
    sqliteRows := 0, jsonRows := 0, logCount := 1 }

/-- A plain environment snapshot (no GPU vendor match, X11, SELinux off,
no container, no Flatpak), used to instantiate universally quantified
theorems. -/
def plainSnapshot : SystemInfo :=
  ⟨"unknown", "x11", "disabled", "none", false, false⟩

/-- An NVIDIA snapshot whose VA-API driver is reported absent
(spec §8 scenario). -/
def nvidiaSnapshot : SystemInfo :=
  ⟨"nvidia", "x11", "disabled", "none", false, false⟩

/-- Logger state after two `log` calls on a healthy logger whose SQLite
INSERT raises a `sqlite3.Error` both times. -/
def sqliteFailTwice : LoggerState :=
  StructuredLogger.log
    (StructuredLogger.log goodLoggerState "t1" "INFO" "launcher" "m1"
      WriteOutcome.ok (WriteOutcome.err "disk I/O error") WriteOutcome.ok)
    "t2" "INFO" "launcher" "m2"
    WriteOutcome.ok (WriteOutcome.err "disk I/O error") WriteOutcome.ok

/-! # Theorems -/

/-- C1: for every environment snapshot, `_build_launch_stages` returns a
non-empty list whose first element is the "vanilla" stage with an empty
flag list and whose last element is the maximal-compatibility
"safe_mode" stage, and the list depends on nothing but the snapshot, so
two calls with the same snapshot produce identical lists. -/
theorem buildLaunchStages_spec (info : SystemInfo) :
    buildLaunchStages info ≠ [] ∧
    (buildLaunchStages info).head? = some vanillaStage ∧
    vanillaStage.flags = [] ∧
    (buildLaunchStages info).getLast? = some safeModeStage ∧
    (∀ info₂ : SystemInfo, info = info₂ →
      buildLaunchStages info = buildLaunchStages info₂) := by
  refine ⟨by simp [buildLaunchStages], rfl, rfl, ?_, fun _ h => by rw [h]⟩
  show (vanillaStage ::
      (gpuStages info ++ [noGpuStage] ++ waylandStages info ++ selinuxStages info ++
        containerStages info ++ flatpakStages info ++ [safeModeStage])).getLast?
    = some safeModeStage
  rw [← List.cons_append]
  exact List.getLast?_concat _

/-- C1 witness: the theorem instantiated at the plain snapshot, the
determinism hypothesis discharged by `rfl`. -/
theorem buildLaunchStages_spec_witness :
    buildLaunchStages plainSnapshot ≠ [] ∧
    buildLaunchStages plainSnapshot = buildLaunchStages plainSnapshot :=
  ⟨(buildLaunchStages_spec plainSnapshot).1,
   (buildLaunchStages_spec plainSnapshot).2.2.2.2 plainSnapshot rfl⟩

/-- C7: every snapshot reporting `gpu_vendor = "nvidia"` with the VA-API
driver reported absent yields a stage list containing the
`no_nvidia_vaapi` mitigation stage strictly before the generic `no_gpu`
stage. -/
theorem nvidia_stage_before_no_gpu (info : SystemInfo)
    (hv : info.gpu_vendor = "nvidia")
    (hva : info.nvidia_vaapi_available = false) :
    ∃ i j : Nat, i < j ∧
      (buildLaunchStages info)[i]? = some nvidiaVaapiStage ∧
      (buildLaunchStages info)[j]? = some noGpuStage := by
  refine ⟨1, 2, by omega, ?_, ?_⟩ <;>
    simp [buildLaunchStages, gpuStages, hv]

/-- C7 witness: the theorem instantiated at the NVIDIA snapshot with the
VA-API driver absent. -/
theorem nvidia_stage_before_no_gpu_witness :
    ∃ i j : Nat, i < j ∧
      (buildLaunchStages nvidiaSnapshot)[i]? = some nvidiaVaapiStage ∧
      (buildLaunchStages nvidiaSnapshot)[j]? = some noGpuStage :=
  nvidia_stage_before_no_gpu nvidiaSnapshot rfl rfl

/-- C8: after `Config.__post_init__`, the numeric settings are clamped
into fixed sane ranges: `launch_timeout ∈ [5, 300]`,
`max_attempts ∈ [1, 10]`, `journal_lines ∈ [10, 10000]` and
`rotate_days ∈ [1, 365]`, for every input. -/
theorem postInit_bounds (c : ConfigNums) :
    5 ≤ (postInit c).launch_timeout ∧ (postInit c).launch_timeout ≤ 300 ∧
    1 ≤ (postInit c).max_attempts ∧ (postInit c).max_attempts ≤ 10 ∧
    10 ≤ (postInit c).journal_lines ∧ (postInit c).journal_lines ≤ 10000 ∧
    1 ≤ (postInit c).rotate_days ∧ (postInit c).rotate_days ≤ 365 := by
  simp only [postInit]
  refine ⟨?_, ?_, ?_, ?_, ?_, ?_, ?_, ?_⟩ <;> split_ifs <;> omega

/-- Helper: length of the attempt list when every launch fails —
the loop runs until the stage list or the cap is exhausted. -/
theorem runAttemptsAux_length_all_fail (succeeds : Nat → Bool) (maxAttempts : Nat)
    (h : ∀ k, succeeds k = false) :
    ∀ (l : List String) (n : Nat),
      (runAttemptsAux succeeds maxAttempts l n).length =
        min l.length (maxAttempts + 1 - n) := by
  intro l
  induction l with
  | nil => intro n; simp [runAttemptsAux]
  | cons s rest ih =>
    intro n
    by_cases hn : n > maxAttempts
    · simp [runAttemptsAux, hn]
      omega
    · simp [runAttemptsAux, hn, h n, ih (n + 1)]
      omega

/-- Helper: the recorded attempt numbers are consecutive starting at the
loop's initial counter value. -/
theorem runAttemptsAux_numbers (succeeds : Nat → Bool) (maxAttempts : Nat) :
    ∀ (l : List String) (n : Nat),
      (runAttemptsAux succeeds maxAttempts l n).map (fun a => a.attempt_number) =
        List.range' n (runAttemptsAux succeeds maxAttempts l n).length := by
  intro l
  induction l with
  | nil => intro n; simp [runAttemptsAux]
  | cons s rest ih =>
    intro n
    by_cases hn : n > maxAttempts
    · simp [runAttemptsAux, hn]
    · by_cases hs : succeeds n
      · simp [runAttemptsAux, hn, hs]
      · simp [runAttemptsAux, hn, hs, ih (n + 1), List.range'_succ]

/-- Helper: the recorded attempts match the strategy list in order with
no stage skipped — they are exactly a prefix of the stage list. -/
theorem runAttemptsAux_strategies (succeeds : Nat → Bool) (maxAttempts : Nat) :
    ∀ (l : List String) (n : Nat),
      (runAttemptsAux succeeds maxAttempts l n).map (fun a => a.strategy) =
        l.take (runAttemptsAux succeeds maxAttempts l n).length := by
  intro l
  induction l with
  | nil => intro n; simp [runAttemptsAux]
  | cons s rest ih =>
    intro n
    by_cases hn : n > maxAttempts
    · simp [runAttemptsAux, hn]
    · by_cases hs : succeeds n
      · simp [runAttemptsAux, hn, hs]
      · simp [runAttemptsAux, hn, hs, ih (n + 1)]

/-- C2 counterexample: with the async launcher's strategy list, cap 4
and a first launch that succeeds, exactly one Attempt is recorded, so
`len(Attempts) = min(len(stages), max_attempts)` is false for that run. -/
theorem runAttempts_count_counterexample :
    ¬ ((runAttempts asyncStrategies 4 (fun _ => true)).length =
        min asyncStrategies.length 4) := by decide

/-- C2 amended: the session loop records `min(len(stages), max_attempts)`
Attempts when every launch fails (recording stops early at the first
success); in every run the attempt numbers are contiguous from 1 and the
attempts match the stage order with no stage skipped. -/
theorem runAttempts_spec (strategies : List String) (maxAttempts : Nat)
    (succeeds : Nat → Bool) :
    ((∀ k, succeeds k = false) →
      (runAttempts strategies maxAttempts succeeds).length =
        min strategies.length maxAttempts) ∧
    (runAttempts strategies maxAttempts succeeds).map (fun a => a.attempt_number) =
      List.range' 1 (runAttempts strategies maxAttempts succeeds).length ∧
    (runAttempts strategies maxAttempts succeeds).map (fun a => a.strategy) =
      strategies.take (runAttempts strategies maxAttempts succeeds).length := by
  refine ⟨fun h => ?_, ?_, ?_⟩
  · have hl := runAttemptsAux_length_all_fail succeeds maxAttempts h strategies 1
    simpa [runAttempts] using hl
  · exact runAttemptsAux_numbers succeeds maxAttempts strategies 1
  · exact runAttemptsAux_strategies succeeds maxAttempts strategies 1

/-- C2 witness: the amended theorem at the async strategy list with cap
4 and every launch failing. -/
theorem runAttempts_spec_witness :
    (runAttempts asyncStrategies 4 (fun _ => false)).length =
      min asyncStrategies.length 4 ∧
    (runAttempts asyncStrategies 4 (fun _ => false)).map
        (fun a => a.attempt_number) =
      List.range' 1 (runAttempts asyncStrategies 4 (fun _ => false)).length :=
  ⟨(runAttempts_spec asyncStrategies 4 (fun _ => false)).1 (fun _ => rfl),
   (runAttempts_spec asyncStrategies 4 (fun _ => false)).2.1⟩

/-- C3 counterexample: when the child exits early with code 1 and stderr
"boom", the supervisor's outcome does not carry the captured stderr —
`launch_chrome_stage` opens the stderr pipe but never reads it. -/
theorem launchChromeStage_stderr_counterexample :
    ¬ ((launchChromeStage (ChildBehavior.exitsEarly 1 "boom")).success = false ∧
       (launchChromeStage (ChildBehavior.exitsEarly 1 "boom")).capturedStderr =
         some "boom") := by decide

/-- C3 amended: a child exiting before the stability window yields a
failure outcome carrying the child's exit code in the error log — but no
captured stderr — and the supervisor kills nothing; a child still alive
when the window elapses yields the success outcome with the process
handed to the caller, untouched. -/
theorem launchChromeStage_spec :
    (∀ (code : Int) (s : String),
      launchChromeStage (ChildBehavior.exitsEarly code s) =
        { success := false, processReturned := false, loggedExitCode := some code,
          capturedStderr := none, childKilled := false }) ∧
    (∀ s : String,
      launchChromeStage (ChildBehavior.staysAlive s) =
        { success := true, processReturned := true, loggedExitCode := none,
          capturedStderr := none, childKilled := false }) :=
  ⟨fun _ _ => rfl, fun _ => rfl⟩

/-- C4 counterexample: a `KeyboardInterrupt` during the stage loop is
not propagated to the caller — `run_troubleshooting_session` catches it
and returns `False`. -/
theorem runSession_interrupt_counterexample :
    ¬ ((runSession true SessionEvent.interruptedDuringLoop).exceptionPropagated =
        true) := by decide

/-- C4 amended: on external cancellation in any state of the session the
current child is cleaned up under the graceful-then-forceful guarantee
(`terminate`, then `kill` after the 5 s grace period) and the lock is
released by the `finally` block, but the `KeyboardInterrupt` is caught
and the session returns a boolean instead of re-raising it. -/
theorem runSession_interrupt_spec :
    runSession true SessionEvent.interruptedDuringLoop =
      { returnValue := some false, exceptionPropagated := false,
        cleanupRan := true, lockReleased := true } ∧
    runSession true SessionEvent.interruptedAfterSuccess =
      { returnValue := some true, exceptionPropagated := false,
        cleanupRan := true, lockReleased := true } ∧
    cleanupActions true true = [CleanupAction.term] ∧
    cleanupActions true false = [CleanupAction.term, CleanupAction.kill] :=
  ⟨rfl, rfl, rfl, rfl⟩

/-- C5: a second `acquire_lock` while the lock is held returns `False`
(the `AlreadyRunning` failure), and after `release_lock` a subsequent
`acquire_lock` succeeds again. -/
theorem lock_acquire_release_roundtrip (p q n₁ n₂ n₃ : Nat) (st : LockState)
    (h : st.osHolder = none) :
    (acquireLock p n₁ st).1 = true ∧
    (acquireLock q n₂ (acquireLock p n₁ st).2).1 = false ∧
    (acquireLock q n₃ (releaseLock true (acquireLock p n₁ st).2)).1 = true := by
  simp [acquireLock, releaseLock, h]

/-- C5 witness: the round trip on a free lock with pids 1 and 2. -/
theorem lock_acquire_release_roundtrip_witness :
    (acquireLock 1 100 ⟨none, none⟩).1 = true ∧
    (acquireLock 2 101 (acquireLock 1 100 ⟨none, none⟩).2).1 = false ∧
    (acquireLock 2 102 (releaseLock true (acquireLock 1 100 ⟨none, none⟩).2)).1 =
      true :=
  lock_acquire_release_roundtrip 1 2 100 101 102 ⟨none, none⟩ rfl

/-- C9: a failed `acquire_lock` against a held lock has already reopened
the well-known lock path with `O_TRUNC`, so the holder's recorded
pid-and-timestamp content is erased even though the acquisition fails —
the lock file's content is not left unchanged on a failed acquire. -/
theorem acquireLock_truncates_on_failure (q now : Nat) (st : LockState)
    (p : Nat) (s : String) (hHeld : st.osHolder = some p)
    (hContent : st.fileContent = some s) (hs : s ≠ "") :
    (acquireLock q now st).1 = false ∧
    (acquireLock q now st).2.fileContent = some "" ∧
    (acquireLock q now st).2.fileContent ≠ st.fileContent := by
  refine ⟨by simp [acquireLock, hHeld], by simp [acquireLock, hHeld], ?_⟩
  simp only [acquireLock, hHeld, hContent]
  intro hEq
  exact hs (Option.some.inj hEq).symm

/-- C9 witness: pid 2 failing to acquire the lock held by pid 1 erases
the recorded `1:42` content. -/
theorem acquireLock_truncates_on_failure_witness :
    (acquireLock 2 200 ⟨some 1, some "1:42\n"⟩).1 = false ∧
    (acquireLock 2 200 ⟨some 1, some "1:42\n"⟩).2.fileContent = some "" ∧
    (acquireLock 2 200 ⟨some 1, some "1:42\n"⟩).2.fileContent ≠ some "1:42\n" :=
  acquireLock_truncates_on_failure 2 200 ⟨some 1, some "1:42\n"⟩ 1 "1:42\n"
    rfl rfl (by decide)

/-- Helper: one `log` call increments `log_count` by exactly one,
whatever the three sink outcomes are. -/
theorem log_logCount (st : LoggerState) (ts lvl src c : String)
    (tO sO jO : WriteOutcome) :
    (StructuredLogger.log st ts lvl src c tO sO jO).logCount = st.logCount + 1 := by
  cases tO <;> cases sO <;> cases jO <;>
    simp only [StructuredLogger.log, StructuredLogger.writeToTerminal,
      StructuredLogger.writeToSqlite, StructuredLogger.writeToJson] <;>
    split_ifs <;> rfl

/-- Helper: one `log` call appends exactly one formatted line to the
terminal sink, whatever the three sink outcomes are. -/
theorem log_terminalLines (st : LoggerState) (ts lvl src c : String)
    (tO sO jO : WriteOutcome) :
    (StructuredLogger.log st ts lvl src c tO sO jO).terminalLines =
      st.terminalLines ++ [StructuredLogger.formatLine ts lvl src c] := by
  cases tO <;> cases sO <;> cases jO <;>
    simp only [StructuredLogger.log, StructuredLogger.writeToTerminal,
      StructuredLogger.writeToSqlite, StructuredLogger.writeToJson] <;>
    split_ifs <;> rfl

/-- Helper: `log` does not change the sink enable flags. -/
theorem log_enableFlags (st : LoggerState) (ts lvl src c : String)
    (tO sO jO : WriteOutcome) :
    (StructuredLogger.log st ts lvl src c tO sO jO).sqliteEnabled =
      st.sqliteEnabled ∧
    (StructuredLogger.log st ts lvl src c tO sO jO).jsonEnabled =
      st.jsonEnabled := by
  cases tO <;> cases sO <;> cases jO <;>
    simp only [StructuredLogger.log, StructuredLogger.writeToTerminal,
      StructuredLogger.writeToSqlite, StructuredLogger.writeToJson] <;>
    split_ifs <;> exact ⟨rfl, rfl⟩

/-- Helper: `_init_sqlite` never touches `log_count`. -/
theorem initSqlite_logCount :
    ∀ (l : List InitOutcome) (st : LoggerState),
      (StructuredLogger.initSqlite st l).logCount = st.logCount := by
  intro l
  induction l with
  | nil => intro st; rfl
  | cons o rest ih =>
    intro st
    by_cases he : st.sqliteEnabled = false
    · simp [StructuredLogger.initSqlite, he]
    · cases o <;> simp [StructuredLogger.initSqlite, he] <;> split_ifs <;>
        simp [ih]

/-- Helper: `_init_json` never touches `log_count`. -/
theorem initJson_logCount (st : LoggerState) (touchOk : Bool) :
    (StructuredLogger.initJson st touchOk).logCount = st.logCount := by
  simp only [StructuredLogger.initJson]
  split_ifs <;> rfl

/-- Helper: folding `log` calls adds one to `log_count` and one terminal
line per call. -/
theorem foldLog_counts :
    ∀ (calls : List LogCall) (st : LoggerState),
      (foldLog st calls).logCount = st.logCount + calls.length ∧
      (foldLog st calls).terminalLines.length =
        st.terminalLines.length + calls.length := by
  intro calls
  induction calls with
  | nil => intro st; simp [foldLog]
  | cons c rest ih =>
    intro st
    have h₁ := log_logCount st c.ts c.level c.source c.content c.textO c.sqliteO c.jsonO
    have h₂ := log_terminalLines st c.ts c.level c.source c.content c.textO c.sqliteO c.jsonO
    have h₃ := ih (StructuredLogger.log st c.ts c.level c.source c.content
      c.textO c.sqliteO c.jsonO)
    simp only [foldLog]
    constructor
    · rw [h₃.1, h₁]; simp only [List.length_cons]; omega
    · rw [h₃.2, h₂]
      simp only [List.length_append, List.length_cons, List.length_nil]
      omega

/-- C6 counterexample: when the SQLite sink fails at write time
(`sqlite3.Error` raised by the INSERT), the sink is NOT disabled and one
stderr warning is printed per failing write — after two failing writes
the sink is still enabled and two warnings have been emitted, so
"disabled for the remainder of the session with exactly one warning" is
false. -/
theorem logger_write_error_counterexample :
    (sqliteFailTwice.sqliteEnabled = true ∧
     sqliteFailTwice.stderrWarnings = 2) ∧
    ¬ (sqliteFailTwice.sqliteEnabled = false ∧
       sqliteFailTwice.stderrWarnings = 1) := by decide

/-- C6 amended: if the SQLite store cannot be opened at construction
(a `sqlite3.Error` other than the "no such column" recovery case), the
sink is disabled for the remainder of the session with exactly one
warning and later writes leave it untouched; and every `log` call,
whatever the SQLite sink outcome, still reaches the terminal sink and
(when enabled) the JSON sink and returns normally.  A write-time SQLite
error, by contrast, does not disable the sink and warns on every
failing write. -/
theorem logger_degrade_spec (st : LoggerState) (msg ts lvl src c : String)
    (o : WriteOutcome) :
    (st.sqliteEnabled = true →
      (StructuredLogger.initSqlite st [InitOutcome.errOther msg]).sqliteEnabled =
        false ∧
      (StructuredLogger.initSqlite st [InitOutcome.errOther msg]).stderrWarnings =
        st.stderrWarnings + 1 ∧
      (∀ o₂ : WriteOutcome,
        StructuredLogger.writeToSqlite
            (StructuredLogger.initSqlite st [InitOutcome.errOther msg]) o₂ =
          StructuredLogger.initSqlite st [InitOutcome.errOther msg])) ∧
    (StructuredLogger.log st ts lvl src c WriteOutcome.ok o
        WriteOutcome.ok).terminalLines =
      st.terminalLines ++ [StructuredLogger.formatLine ts lvl src c] ∧
    (st.jsonEnabled = true →
      (StructuredLogger.log st ts lvl src c WriteOutcome.ok o
          WriteOutcome.ok).jsonRows = st.jsonRows + 1) ∧
    (StructuredLogger.log st ts lvl src c WriteOutcome.ok o
        WriteOutcome.ok).logCount = st.logCount + 1 := by
  refine ⟨fun h => ⟨?_, ?_, fun o₂ => ?_⟩,
    log_terminalLines st ts lvl src c WriteOutcome.ok o WriteOutcome.ok,
    fun h => ?_,
    log_logCount st ts lvl src c WriteOutcome.ok o WriteOutcome.ok⟩
  · simp [StructuredLogger.initSqlite, h]
  · simp [StructuredLogger.initSqlite, h]
  · simp [StructuredLogger.initSqlite, StructuredLogger.writeToSqlite, h]
  · cases o <;>
      simp only [StructuredLogger.log, StructuredLogger.writeToTerminal,
        StructuredLogger.writeToSqlite, StructuredLogger.writeToJson] <;>
      split_ifs <;> simp_all

/-- C6 witness: the amended theorem at a healthy logger state, with an
"unable to open database file" init error and a failing SQLite write. -/
theorem logger_degrade_spec_witness :
    (StructuredLogger.initSqlite goodLoggerState
        [InitOutcome.errOther "unable to open database file"]).sqliteEnabled =
      false ∧
    (StructuredLogger.log goodLoggerState "t" "INFO" "launcher" "hello"
        WriteOutcome.ok (WriteOutcome.err "disk I/O error")
        WriteOutcome.ok).jsonRows = goodLoggerState.jsonRows + 1 ∧
    (StructuredLogger.log goodLoggerState "t" "INFO" "launcher" "hello"
        WriteOutcome.ok (WriteOutcome.err "disk I/O error")
        WriteOutcome.ok).logCount = goodLoggerState.logCount + 1 :=
  have h := logger_degrade_spec goodLoggerState "unable to open database file"
    "t" "INFO" "launcher" "hello" (WriteOutcome.err "disk I/O error")
  ⟨(h.1 rfl).1, h.2.2.1 rfl, h.2.2.2⟩

/-- C10: every `log` call increments `log_count` by exactly one and
emits exactly one formatted line to the terminal sink, whatever the sink
outcomes (in particular with both durable sinks disabled); the
constructor itself logs one session-start entry, so after `N` further
write calls `log_count = N + 1`; and each level wrapper
(`debug`/`info`/`warn`/`error`/`success`/`add`) is a pure call-through
to `log` with a fixed level. -/
theorem logger_log_count_spec :
    (∀ (st : LoggerState) (calls : List LogCall),
      (foldLog st calls).logCount = st.logCount + calls.length ∧
      (foldLog st calls).terminalLines.length =
        st.terminalLines.length + calls.length) ∧
    (∀ (eS eJ : Bool) (sqliteInit : List InitOutcome) (jsonTouchOk : Bool)
        (ts : String) (tO sO jO : WriteOutcome),
      (StructuredLogger.new eS eJ sqliteInit jsonTouchOk ts tO sO jO).logCount =
        1) ∧
    (∀ (eS eJ : Bool) (sqliteInit : List InitOutcome) (jsonTouchOk : Bool)
        (ts : String) (tO sO jO : WriteOutcome) (calls : List LogCall),
      (foldLog (StructuredLogger.new eS eJ sqliteInit jsonTouchOk ts tO sO jO)
          calls).logCount = calls.length + 1) ∧
    (∀ (st : LoggerState) (ts src c : String) (tO sO jO : WriteOutcome),
      StructuredLogger.debug st ts src c tO sO jO =
        StructuredLogger.log st ts "DEBUG" src c tO sO jO) ∧
    (∀ (st : LoggerState) (ts src c : String) (tO sO jO : WriteOutcome),
      StructuredLogger.info st ts src c tO sO jO =
        StructuredLogger.log st ts "INFO" src c tO sO jO) ∧
    (∀ (st : LoggerState) (ts src c : String) (tO sO jO : WriteOutcome),
      StructuredLogger.warn st ts src c tO sO jO =
        StructuredLogger.log st ts "WARN" src c tO sO jO) ∧
    (∀ (st : LoggerState) (ts src c : String) (tO sO jO : WriteOutcome),
      StructuredLogger.error st ts src c tO sO jO =
        StructuredLogger.log st ts "ERROR" src c tO sO jO) ∧
    (∀ (st : LoggerState) (ts src c : String) (tO sO jO : WriteOutcome),
      StructuredLogger.success st ts src c tO sO jO =
        StructuredLogger.log st ts "SUCCESS" src c tO sO jO) ∧
    (∀ (st : LoggerState) (ts src c : String) (tO sO jO : WriteOutcome),
      StructuredLogger.add st ts src c tO sO jO =
        StructuredLogger.log st ts "INFO" src c tO sO jO) := by
  have hnew : ∀ (eS eJ : Bool) (sqliteInit : List InitOutcome)
      (jsonTouchOk : Bool) (ts : String) (tO sO jO : WriteOutcome),
      (StructuredLogger.new eS eJ sqliteInit jsonTouchOk ts tO sO jO).logCount =
        1 := by
    intro eS eJ i jOk ts tO sO jO
    simp only [StructuredLogger.new, StructuredLogger.info]
    rw [log_logCount, initJson_logCount, initSqlite_logCount]
  refine ⟨fun st calls => foldLog_counts calls st, hnew, ?_,
    fun _ _ _ _ _ _ _ => rfl, fun _ _ _ _ _ _ _ => rfl,
    fun _ _ _ _ _ _ _ => rfl, fun _ _ _ _ _ _ _ => rfl,
    fun _ _ _ _ _ _ _ => rfl, fun _ _ _ _ _ _ _ => rfl⟩
  intro eS eJ i jOk ts tO sO jO calls
  rw [(foldLog_counts calls _).1, hnew eS eJ i jOk ts tO sO jO]
  omega
